import Mathlib

/-!
Verification development for the benefits-api screening system.

The repository's calculator layer is specified in spec.md; the household
data model (Screen, HouseholdMember, IncomeStream, Expense), the tax-unit
partitioner and the dependency resolvers are embedded below.  Only the
tests, the registry composition modules and the MA calculator dictionary
are present in the repository snapshot, so the model methods themselves
are modelled from the spec (each such definition carries a
"Modelled from the spec:" doc comment naming what is missing); the
registry composition is translated directly from
programs/programs/policyengine/calculators/registry.py and
programs/programs/ma/pe/__init__.py.
All money amounts are rationals, mirroring Decimal arithmetic on the
exact values the tests exercise.
-/

/-- Payment frequency of an income stream, expense, or requested
aggregation period ("monthly, yearly, etc." in the spec). -/
inductive Frequency where
  | yearly
  | monthly
  | weekly
  | biweekly
  | semimonthly
  deriving DecidableEq, Repr

/-- Number of periods per year for a frequency, used to annualize or
monthlyize an amount. -/
def periodsPerYear : Frequency → ℚ
  | .yearly => 1
  | .monthly => 12
  | .weekly => 52
  | .biweekly => 26
  | .semimonthly => 24

/-- One member of a household being screened.  `id` records insertion
order (Django autoincrement primary key). -/
structure HouseholdMember where
  id : Nat
  relationship : String
  age : Nat
  disabled : Bool := false
  longTermDisability : Bool := false
  student : Bool := false
  pregnant : Option Bool := none
  deriving DecidableEq, Repr

/-- One income stream, belonging to one member. -/
structure IncomeStream where
  memberId : Nat
  type : String
  amount : ℚ
  frequency : Frequency
  deriving DecidableEq, Repr

/-- One household-level expense. -/
structure Expense where
  type : String
  amount : ℚ
  frequency : Frequency
  deriving DecidableEq, Repr

/-- A screening session: household members plus declared income,
expenses and declared-benefit flags.  `benefits` maps an (unprefixed)
program name to the screen's declared-benefit flag for it (the
`has_snap`, `has_head_start`, ... boolean columns). -/
structure Screen where
  householdSize : Nat
  members : List HouseholdMember
  incomes : List IncomeStream
  expenses : List Expense
  benefits : String → Bool

/-- Modelled from the spec: the earned/unearned tag of an income type
(screener model income-type metadata, not in src).  Spec section 3: each
income type is "tagged as earned or unearned for aggregation purposes";
wages and self-employment are the earned ones. -/
def tagOf (t : String) : String :=
  if t = "wages" ∨ t = "selfEmployment" then "earned" else "unearned"

/-- Annualized value of one income stream: amount times periods per year
of its frequency. -/
def annualAmount (s : IncomeStream) : ℚ :=
  s.amount * periodsPerYear s.frequency

/-- Whether an income stream matches a `types` selector list ("all",
"earned", "unearned") and is not excluded by type name. -/
def includeStream (types exclude : List String) (s : IncomeStream) : Bool :=
  (types.contains "all" || types.contains (tagOf s.type)) && !(exclude.contains s.type)

/-- Modelled from the spec: Screen.calc_gross_income (screener/models.py,
not in src).  Sums all matching income streams annualized, then converts
to the requested period by dividing by that period's count per year. -/
def Screen.calc_gross_income (s : Screen) (period : Frequency)
    (types : List String) (exclude : List String) : ℚ :=
  ((s.incomes.filter (includeStream types exclude)).foldl
    (fun acc st => acc + annualAmount st) 0) / periodsPerYear period

/-- Streams belonging to one member. -/
def memberStreams (s : Screen) (m : HouseholdMember) : List IncomeStream :=
  s.incomes.filter (fun st => st.memberId == m.id)

/-- Modelled from the spec: HouseholdMember.calc_gross_income
(screener/models.py, not in src): like the screen-level aggregation but
restricted to the member's own streams. -/
def HouseholdMember.calc_gross_income (m : HouseholdMember) (s : Screen)
    (period : Frequency) (types : List String) (exclude : List String) : ℚ :=
  ((memberStreams s m).filter (includeStream types exclude)).foldl
    (fun acc st => acc + annualAmount st) 0 / periodsPerYear period

/-- Modelled from the spec: HouseholdMember.is_head (screener/models.py,
not in src): the member whose relationship is head of household. -/
def HouseholdMember.is_head (m : HouseholdMember) : Bool :=
  m.relationship == "headOfHousehold"

/-- Modelled from the spec: HouseholdMember.is_spouse (screener/models.py,
not in src): spouse or domestic partner of the head. -/
def HouseholdMember.is_spouse (m : HouseholdMember) : Bool :=
  m.relationship == "spouse" || m.relationship == "domesticPartner"

/-- Modelled from the spec: HouseholdMember.has_disability
(screener/models.py, not in src): either disability flag. -/
def HouseholdMember.has_disability (m : HouseholdMember) : Bool :=
  m.disabled || m.longTermDisability

/-- A member's own annual gross income, all types. -/
def memberYearlyIncome (s : Screen) (m : HouseholdMember) : ℚ :=
  m.calc_gross_income s .yearly ["all"] []

/-- Household-wide annual gross income, all types. -/
def householdYearlyIncome (s : Screen) : ℚ :=
  s.calc_gross_income .yearly ["all"] []

/-- Modelled from the spec: HouseholdMember.is_dependent
(screener/models.py, not in src).  Spec section 4.2 dependent predicate:
not head, not spouse of head; (age at most 18) or (student and age at
most 23) or disabled; and own annual gross income at most half of the
combined income of the unit including the member (the household-wide
gross income, computed once). -/
def HouseholdMember.is_dependent (m : HouseholdMember) (s : Screen) : Bool :=
  !m.is_head && !m.is_spouse &&
  (decide (m.age ≤ 18) || (m.student && decide (m.age ≤ 23)) || m.has_disability) &&
  decide (memberYearlyIncome s m ≤ householdYearlyIncome s / 2)

/-- Accumulating fold of annualized amounts, with an arbitrary start value. -/
theorem foldl_annual_acc (l : List IncomeStream) (a : ℚ) :
    l.foldl (fun acc st => acc + annualAmount st) a = a + (l.map annualAmount).sum := by
  induction l generalizing a with
  | nil => simp
  | cons x xs ih =>
      simp only [List.foldl_cons, List.map_cons, List.sum_cons, ih]
      ring

/-- The stream-fold used by the income aggregators equals the sum of the
annualized amounts. -/
theorem foldl_annual_eq_sum (l : List IncomeStream) :
    l.foldl (fun acc st => acc + annualAmount st) 0 = (l.map annualAmount).sum := by
  simpa using foldl_annual_acc l 0

/-- A derived secondary tax unit: optional head, optional spouse, and a
list of dependents. -/
structure TaxUnit where
  head : Option HouseholdMember
  spouse : Option HouseholdMember
  dependents : List HouseholdMember
  deriving DecidableEq, Repr

/-- Candidates for a secondary tax unit: members that are not the head,
not the head's spouse, and not dependents of the primary head. -/
def secondaryCandidates (s : Screen) : List HouseholdMember :=
  s.members.filter (fun m => !m.is_head && !m.is_spouse && !(m.is_dependent s))

/-- Pick the oldest member of a list; among members sharing the maximum
age the later one in iteration order wins. -/
def pickOldest (l : List HouseholdMember) : Option HouseholdMember :=
  l.foldl (fun best m =>
    match best with
    | none => some m
    | some b => if b.age ≤ m.age then some m else some b) none

/-- Whether two relationship-to-head values form a mutual couple for
secondary-unit grouping: spouse/domestic-partner pairs, parent/parent
pairs, or grandparent/grandparent pairs. -/
def coupleRel (a b : String) : Bool :=
  ((a == "spouse" || a == "domesticPartner") && (b == "spouse" || b == "domesticPartner")) ||
  (a == "parent" && b == "parent") ||
  (a == "grandParent" && b == "grandParent")

/-- Secondary unit built around a chosen head: the remaining candidates
are searched for the oldest mutual-couple partner, who becomes the
spouse; all other remaining candidates become the unit's dependents. -/
def otherUnitWith (cands : List HouseholdMember) (h : HouseholdMember) : TaxUnit :=
  match pickOldest (((cands.filter (fun m => m.id ≠ h.id))).filter
      (fun m => coupleRel h.relationship m.relationship)) with
  | none => ⟨some h, none, cands.filter (fun m => m.id ≠ h.id)⟩
  | some sp => ⟨some h, some sp,
      (cands.filter (fun m => m.id ≠ h.id)).filter (fun m => m.id ≠ sp.id)⟩

/-- Modelled from the spec: Screen.other_tax_unit_structure
(screener/models.py, not in src).  Spec section 4.2: members that are
not the head, the head's spouse, or dependents of the head are
candidates for the secondary unit; its head is the oldest candidate
(later-created wins an age tie), its spouse is the oldest remaining
candidate forming a mutual couple with the head, and the remaining
candidates become the unit's dependents. -/
def Screen.other_tax_unit_structure (s : Screen) : TaxUnit :=
  match pickOldest (secondaryCandidates s) with
  | none => ⟨none, none, []⟩
  | some h => otherUnitWith (secondaryCandidates s) h

/-- Sum of a member's annualized income streams whose type is in `types`
(summed across streams and across matched types). -/
def memberIncomeByTypes (s : Screen) (m : HouseholdMember) (types : List String) : ℚ :=
  ((memberStreams s m).filter (fun st => types.contains st.type)).foldl
    (fun acc st => acc + annualAmount st) 0

/-- Modelled from the spec: EmploymentIncomeDependency.value
(policyengine/calculators/dependencies/member.py, not in src): annualized
wages income of the member. -/
def EmploymentIncomeDependency.value (s : Screen) (m : HouseholdMember) : ℚ :=
  memberIncomeByTypes s m ["wages"]

/-- Modelled from the spec: SelfEmploymentIncomeDependency.value
(dependencies/member.py, not in src). -/
def SelfEmploymentIncomeDependency.value (s : Screen) (m : HouseholdMember) : ℚ :=
  memberIncomeByTypes s m ["selfEmployment"]

/-- Modelled from the spec: RentalIncomeDependency.value
(dependencies/member.py, not in src). -/
def RentalIncomeDependency.value (s : Screen) (m : HouseholdMember) : ℚ :=
  memberIncomeByTypes s m ["rental"]

/-- Modelled from the spec: PensionIncomeDependency.value
(dependencies/member.py, not in src): pension and veteran income
combined. -/
def PensionIncomeDependency.value (s : Screen) (m : HouseholdMember) : ℚ :=
  memberIncomeByTypes s m ["pension", "veteran"]

/-- Modelled from the spec: SocialSecurityIncomeDependency.value
(dependencies/member.py, not in src): the retirement, disability,
survivor and dependent Social-Security subtypes combined. -/
def SocialSecurityIncomeDependency.value (s : Screen) (m : HouseholdMember) : ℚ :=
  memberIncomeByTypes s m ["sSRetirement", "sSDisability", "sSSurvivor", "sSDependent"]

/-- Modelled from the spec: PregnancyDependency.value
(dependencies/member.py, not in src): pass-through of the pregnancy
flag, treating an unset/None value as false. -/
def PregnancyDependency.value (m : HouseholdMember) : Bool :=
  m.pregnant.getD false

/-- Modelled from the spec: the fixed elderly age threshold used by the
medical-expense resolver (SNAP elderly threshold; a 65-year-old is
elderly, a 35-year-old is not). -/
def elderlyAgeThreshold : Nat := 60

/-- Whether a member counts as elderly or disabled for the
medical-expense split. -/
def isElderlyOrDisabled (m : HouseholdMember) : Bool :=
  decide (elderlyAgeThreshold ≤ m.age) || m.has_disability

/-- Annualized value of one expense record. -/
def annualExpense (e : Expense) : ℚ :=
  e.amount * periodsPerYear e.frequency

/-- Annualized household expense of the given types. -/
def annualExpenseOfTypes (s : Screen) (types : List String) : ℚ :=
  ((s.expenses.filter (fun e => types.contains e.type)).foldl
    (fun acc e => acc + annualExpense e) 0)

/-- Number of elderly-or-disabled members in the household. -/
def countElderlyOrDisabled (s : Screen) : Nat :=
  (s.members.filter isElderlyOrDisabled).length

/-- Modelled from the spec: MedicalExpenseDependency.value
(dependencies/member.py, not in src): the annualized household medical
expense divided by the count of elderly-or-disabled members when the
member is elderly or disabled, else zero. -/
def MedicalExpenseDependency.value (s : Screen) (m : HouseholdMember) : ℚ :=
  if isElderlyOrDisabled m then
    annualExpenseOfTypes s ["medical"] / (countElderlyOrDisabled s : ℚ)
  else 0

/-- Drop a leading jurisdiction prefix (everything up to and including
the first underscore) from a program identifier. -/
def stripJurisdiction (pid : String) : String :=
  String.mk ((pid.data.dropWhile (fun c => c ≠ '_')).drop 1)

/-- Modelled from the spec: Screen.has_benefit (screener/models.py, not
in src): reads the screen's declared-benefit flag for the program named
by the identifier with its jurisdiction prefix removed, so identifiers
from different jurisdictions for the same program read the same shared
flag. -/
def Screen.has_benefit (s : Screen) (pid : String) : Bool :=
  s.benefits (stripJurisdiction pid)

/-- Keys of a calculator dictionary (association list from program
identifier to calculator class name, mirroring a Python dict). -/
def dictKeys (d : List (String × String)) : List String :=
  d.map Prod.fst

/-- Whether a dictionary has a binding for a key. -/
def hasKey (d : List (String × String)) (k : String) : Bool :=
  d.any (fun kv => kv.1 == k)

/-- Value bound to a key in a dictionary, if any. -/
def lookupDict (k : String) : List (String × String) → Option String
  | [] => none
  | kv :: rest => if kv.1 = k then some kv.2 else lookupDict k rest

/-- Python dict merge as used in registry.py: the left dictionary's
entries with values overridden by the right one on key collision
(last-write-wins), followed by the right dictionary's new keys. -/
def mergeDict (a b : List (String × String)) : List (String × String) :=
  a.map (fun kv =>
    match lookupDict kv.1 b with
    | some v => (kv.1, v)
    | none => kv)
  ++ b.filter (fun kv => !hasKey a kv.1)

/-- MA member-level calculators (programs/programs/ma/pe/init). -/
def ma_member_calculators : List (String × String) :=
  [("ma_wic", "member.MaWic"),
   ("ma_ccdf", "member.MaCcdf"),
   ("ma_mass_health", "member.MaMassHealth"),
   ("ma_mass_health_limited", "member.MaMassHealthLimited"),
   ("ma_mbta", "member.MaMbta"),
   ("ma_ssp", "member.MaStateSupplementProgram"),
   ("ma_head_start", "member.MaHeadStart"),
   ("ma_early_head_start", "member.MaEarlyHeadStart")]

/-- MA tax-unit-level calculators (programs/programs/ma/pe/init). -/
def ma_tax_unit_calculators : List (String × String) :=
  [("ma_maeitc", "tax.Maeitc"),
   ("ma_cfc", "tax.MaChildFamilyCredit"),
   ("ma_aca", "tax.MaAca")]

/-- MA SPM-unit-level calculators (programs/programs/ma/pe/init). -/
def ma_spm_calculators : List (String × String) :=
  [("ma_snap", "spm.MaSnap"),
   ("ma_tafdc", "spm.MaTafdc"),
   ("ma_eaedc", "spm.MaEaedc"),
   ("ma_heap", "spm.MaHeap")]

/-- MA combined calculator dictionary (programs/programs/ma/pe/init):
member, then tax-unit, then SPM dictionaries merged. -/
def ma_pe_calculators : List (String × String) :=
  mergeDict (mergeDict ma_member_calculators ma_tax_unit_calculators) ma_spm_calculators

/-- Modelled from the spec: the TX member-level calculator dictionary
(programs/programs/tx/pe, not in src); TxLifeline is the member-level TX
program named by the repository's dependency tests. -/
def tx_member_calculators : List (String × String) :=
  [("tx_lifeline", "member.TxLifeline")]

/-- Modelled from the spec: the TX SPM-level calculator dictionary
(programs/programs/tx/pe, not in src); tx_snap is the SPM-level TX
program identifier named by the spec. -/
def tx_spm_calculators : List (String × String) :=
  [("tx_snap", "spm.TxSnap")]

/-- Modelled from the spec: the TX tax-unit-level calculator dictionary
(programs/programs/tx/pe, not in src); no TX tax-unit program is named
in the spec or tests. -/
def tx_tax_unit_calculators : List (String × String) := []

/-- Modelled from the spec: TX combined dictionary, built like the MA one. -/
def tx_pe_calculators : List (String × String) :=
  mergeDict (mergeDict tx_member_calculators tx_tax_unit_calculators) tx_spm_calculators

/-- Modelled from the spec: the CO calculator dictionaries
(programs/programs/co/pe, not in src); no concrete CO program key is
given by the spec, so the dictionaries are modelled empty. -/
def co_member_calculators : List (String × String) := []

/-- Modelled from the spec: CO SPM dictionary (not in src). -/
def co_spm_calculators : List (String × String) := []

/-- Modelled from the spec: CO tax-unit dictionary (not in src). -/
def co_tax_unit_calculators : List (String × String) := []

/-- Modelled from the spec: CO combined dictionary. -/
def co_pe_calculators : List (String × String) :=
  mergeDict (mergeDict co_member_calculators co_tax_unit_calculators) co_spm_calculators

/-- Modelled from the spec: the federal calculator dictionaries
(programs/programs/federal/pe, not in src), modelled empty. -/
def federal_member_calculators : List (String × String) := []

/-- Modelled from the spec: federal SPM dictionary (not in src). -/
def federal_spm_unit_calculators : List (String × String) := []

/-- Modelled from the spec: federal tax-unit dictionary (not in src). -/
def federal_tax_unit_calculators : List (String × String) := []

/-- Modelled from the spec: federal combined dictionary. -/
def federal_pe_calculators : List (String × String) :=
  mergeDict (mergeDict federal_member_calculators federal_tax_unit_calculators)
    federal_spm_unit_calculators

/-- Modelled from the spec: the IL calculator dictionaries
(programs/programs/il/pe, not in src), modelled empty. -/
def il_member_calculators : List (String × String) := []

/-- Modelled from the spec: IL SPM dictionary (not in src). -/
def il_spm_calculators : List (String × String) := []

/-- Modelled from the spec: IL tax-unit dictionary (not in src). -/
def il_tax_unit_calculators : List (String × String) := []

/-- Modelled from the spec: IL combined dictionary. -/
def il_pe_calculators : List (String × String) :=
  mergeDict (mergeDict il_member_calculators il_tax_unit_calculators) il_spm_calculators

/-- Modelled from the spec: the NC calculator dictionaries
(programs/programs/nc/pe, not in src; NC exposes only member and SPM
dictionaries per registry.py), modelled empty. -/
def nc_member_calculators : List (String × String) := []

/-- Modelled from the spec: NC SPM dictionary (not in src). -/
def nc_spm_calculators : List (String × String) := []

/-- Modelled from the spec: NC combined dictionary (member and SPM only). -/
def nc_pe_calculators : List (String × String) :=
  mergeDict nc_member_calculators nc_spm_calculators

/-- registry.py: all member-level calculators, merged across
jurisdictions in source order (co, federal, il, ma, nc, tx). -/
def all_member_calculators : List (String × String) :=
  mergeDict (mergeDict (mergeDict (mergeDict (mergeDict
    co_member_calculators federal_member_calculators)
    il_member_calculators) ma_member_calculators)
    nc_member_calculators) tx_member_calculators

/-- registry.py: all SPM-unit calculators, merged across jurisdictions. -/
def all_spm_unit_calculators : List (String × String) :=
  mergeDict (mergeDict (mergeDict (mergeDict (mergeDict
    co_spm_calculators federal_spm_unit_calculators)
    il_spm_calculators) ma_spm_calculators)
    nc_spm_calculators) tx_spm_calculators

/-- registry.py: all tax-unit calculators, merged across jurisdictions
(no NC dictionary here, matching the source). -/
def all_tax_unit_calculators : List (String × String) :=
  mergeDict (mergeDict (mergeDict (mergeDict
    co_tax_unit_calculators federal_tax_unit_calculators)
    il_tax_unit_calculators) ma_tax_unit_calculators)
    tx_tax_unit_calculators

/-- registry.py: the combined all-programs registry: member, then SPM,
then tax-unit dictionaries merged. -/
def all_calculators : List (String × String) :=
  mergeDict (mergeDict all_member_calculators all_spm_unit_calculators)
    all_tax_unit_calculators

/-- Concatenation of every jurisdiction's combined dictionary keys, in
registry source order. -/
def allJurisdictionKeys : List String :=
  dictKeys co_pe_calculators ++ dictKeys federal_pe_calculators ++
  dictKeys il_pe_calculators ++ dictKeys ma_pe_calculators ++
  dictKeys nc_pe_calculators ++ dictKeys tx_pe_calculators

/-- A key is absent from a dictionary exactly when lookup finds nothing. -/
theorem lookup_eq_none_of_not_mem_keys (b : List (String × String)) (k : String)
    (h : k ∉ dictKeys b) : lookupDict k b = none := by
  induction b with
  | nil => rfl
  | cons x xs ih =>
      simp only [dictKeys, List.map_cons, List.mem_cons, not_or] at h
      simp only [lookupDict]
      rw [if_neg (fun hx => h.1 hx.symm)]
      exact ih (by simpa [dictKeys] using h.2)

/-- hasKey decides membership in the key list. -/
theorem hasKey_iff_mem (a : List (String × String)) (k : String) :
    hasKey a k = true ↔ k ∈ dictKeys a := by
  induction a with
  | nil => simp [hasKey, dictKeys]
  | cons x xs ih =>
      simp only [hasKey, List.any_cons, Bool.or_eq_true, beq_iff_eq, dictKeys,
        List.map_cons, List.mem_cons] at ih ⊢
      constructor
      · rintro (h | h)
        · exact Or.inl h.symm
        · exact Or.inr (ih.mp h)
      · rintro (h | h)
        · exact Or.inl h.symm
        · exact Or.inr (ih.mpr h)

/-- Merging dictionaries with disjoint key sets is plain concatenation:
no binding is overridden and no entry is dropped. -/
theorem mergeDict_eq_append (a b : List (String × String))
    (h : ∀ k, k ∈ dictKeys a → k ∉ dictKeys b) : mergeDict a b = a ++ b := by
  unfold mergeDict
  have h1 : a.map (fun kv =>
      match lookupDict kv.1 b with
      | some v => (kv.1, v)
      | none => kv) = a := by
    induction a with
    | nil => rfl
    | cons x xs ih =>
        have hx : x.1 ∉ dictKeys b := h x.1 (by simp [dictKeys])
        simp only [List.map_cons]
        rw [lookup_eq_none_of_not_mem_keys b x.1 hx]
        rw [ih (fun k hk => h k (by simp [dictKeys] at hk ⊢; exact Or.inr hk))]
  have h2 : b.filter (fun kv => !hasKey a kv.1) = b := by
    apply List.filter_eq_self.mpr
    intro kv hkv
    have : kv.1 ∈ dictKeys b := by
      simp [dictKeys]
      exact ⟨kv.2, hkv⟩
    have hna : kv.1 ∉ dictKeys a := by
      intro hIn
      exact h kv.1 hIn this
    simp only [Bool.not_eq_true']
    rw [← Bool.not_eq_true]
    intro hk
    exact hna ((hasKey_iff_mem a kv.1).mp hk)
  rw [h1, h2]

/-- A stream passes the "earned" selector exactly when its type is
tagged earned. -/
theorem includeStream_earned (st : IncomeStream) :
    includeStream ["earned"] [] st = decide (tagOf st.type = "earned") := by
  simp [includeStream, tagOf]

/-- A stream passes the "unearned" selector exactly when its type is
tagged unearned. -/
theorem includeStream_unearned (st : IncomeStream) :
    includeStream ["unearned"] [] st = decide (tagOf st.type = "unearned") := by
  simp [includeStream, tagOf]

/-- Every stream passes the "all" selector. -/
theorem includeStream_all (st : IncomeStream) :
    includeStream ["all"] [] st = true := by
  simp [includeStream]

/-- Splitting a filtered sum over a disjunction of disjoint predicates. -/
theorem sum_map_filter_or (f : IncomeStream → ℚ) (p q : IncomeStream → Bool)
    (l : List IncomeStream) (h : ∀ x ∈ l, ¬(p x = true ∧ q x = true)) :
    ((l.filter (fun x => p x || q x)).map f).sum =
      ((l.filter p).map f).sum + ((l.filter q).map f).sum := by
  induction l with
  | nil => simp
  | cons x xs ih =>
      have hx := h x (List.mem_cons_self x xs)
      have ihx := ih (fun y hy => h y (List.mem_cons_of_mem x hy))
      by_cases hp : p x = true
      · have hq : q x = false := Bool.eq_false_iff.mpr (fun h1 => hx ⟨hp, h1⟩)
        simp [List.filter_cons, hp, hq, ihx]
        ring
      · have hp' : p x = false := Bool.eq_false_iff.mpr hp
        by_cases hq : q x = true
        · simp [List.filter_cons, hp', hq, ihx]
          ring
        · have hq' : q x = false := Bool.eq_false_iff.mpr hq
          simp [List.filter_cons, hp', hq', ihx]

/-- Claim C4: for every screen and requested period, calc_gross_income
with the "earned" selector equals the sum of the earned-tagged streams'
amount times periods-per-year, converted to the requested period; the
same holds for "unearned"; and "all" is the disjoint union of earned and
unearned, with no stream counted twice. -/
theorem calc_gross_income_tagged_sums (s : Screen) (period : Frequency) :
    s.calc_gross_income period ["earned"] [] =
      ((s.incomes.filter (fun st => tagOf st.type = "earned")).map annualAmount).sum /
        periodsPerYear period ∧
    s.calc_gross_income period ["unearned"] [] =
      ((s.incomes.filter (fun st => tagOf st.type = "unearned")).map annualAmount).sum /
        periodsPerYear period ∧
    s.calc_gross_income period ["all"] [] =
      s.calc_gross_income period ["earned"] [] +
        s.calc_gross_income period ["unearned"] [] := by
  have hearned : s.calc_gross_income period ["earned"] [] =
      ((s.incomes.filter (fun st => tagOf st.type = "earned")).map annualAmount).sum /
        periodsPerYear period := by
    unfold Screen.calc_gross_income
    rw [List.filter_congr (fun st _ => includeStream_earned st), foldl_annual_eq_sum]
  have hunearned : s.calc_gross_income period ["unearned"] [] =
      ((s.incomes.filter (fun st => tagOf st.type = "unearned")).map annualAmount).sum /
        periodsPerYear period := by
    unfold Screen.calc_gross_income
    rw [List.filter_congr (fun st _ => includeStream_unearned st), foldl_annual_eq_sum]
  refine ⟨hearned, hunearned, ?_⟩
  have hall : s.calc_gross_income period ["all"] [] =
      ((s.incomes.filter (fun st =>
        decide (tagOf st.type = "earned") || decide (tagOf st.type = "unearned"))).map
          annualAmount).sum / periodsPerYear period := by
    unfold Screen.calc_gross_income
    rw [List.filter_congr (fun st _ => ?_), foldl_annual_eq_sum]
    rw [includeStream_all]
    rcases em (st.type = "wages" ∨ st.type = "selfEmployment") with hc | hc
    · simp [tagOf, hc]
    · simp [tagOf, hc]
  rw [hall, hearned, hunearned,
    sum_map_filter_or annualAmount _ _ s.incomes (by
      intro st _ hst
      rw [decide_eq_true_eq, decide_eq_true_eq] at hst
      rw [hst.1] at hst
      exact absurd hst.2 (by decide)),
    add_div]

/-- Household member used as a minimal convenience constructor in the
partitioning and dependency theorems: non-student, non-disabled, not
pregnant. -/
def mkMember (i : Nat) (rel : String) (age : Nat) : HouseholdMember :=
  ⟨i, rel, age, false, false, false, none⟩

/-- Screen with the given members and income streams, no expenses and no
declared benefits. -/
def mkScreen (ms : List HouseholdMember) (inc : List IncomeStream) : Screen :=
  ⟨ms.length, ms, inc, [], fun _ => false⟩

/-- Claim C2 counterexample: the claim quantifies over every household
member, but a head of household aged 10 with income at the 50% threshold
(zero income in a zero-income household) is not a dependent even though
their age is at most 18: the dependent predicate also requires the member
not to be the head or the head's spouse. -/
theorem is_dependent_age_claim_counterexample :
    memberYearlyIncome (mkScreen [mkMember 1 "headOfHousehold" 10] []) (mkMember 1 "headOfHousehold" 10) ≤
      householdYearlyIncome (mkScreen [mkMember 1 "headOfHousehold" 10] []) / 2 ∧
    (mkMember 1 "headOfHousehold" 10).age ≤ 18 ∧
    (mkMember 1 "headOfHousehold" 10).is_dependent (mkScreen [mkMember 1 "headOfHousehold" 10] []) = false := by
  refine ⟨?_, by decide, by decide⟩
  simp [memberYearlyIncome, householdYearlyIncome, Screen.calc_gross_income,
    HouseholdMember.calc_gross_income, memberStreams, mkScreen, mkMember]

/-- Claim C2 (amended): for every non-head, non-spouse member whose own
income is at or below the 50% threshold, is_dependent() is true whenever
age is at most 18; for a non-student, non-disabled member it is false at
age 19 exactly; for a student it is true at age 23; and for a
non-disabled student it is false at age 24. -/
theorem is_dependent_age_boundaries (s : Screen) (m : HouseholdMember)
    (hhead : m.is_head = false) (hspouse : m.is_spouse = false)
    (hinc : memberYearlyIncome s m ≤ householdYearlyIncome s / 2) :
    (m.age ≤ 18 → m.is_dependent s = true) ∧
    (m.age = 19 → m.student = false → m.has_disability = false → m.is_dependent s = false) ∧
    (m.age = 23 → m.student = true → m.is_dependent s = true) ∧
    (m.age = 24 → m.student = true → m.has_disability = false → m.is_dependent s = false) := by
  unfold HouseholdMember.is_dependent
  rw [hhead, hspouse, decide_eq_true hinc]
  refine ⟨?_, ?_, ?_, ?_⟩
  · intro hage
    rw [decide_eq_true hage]
    simp
  · intro hage hstud hdis
    rw [hstud, hdis, hage]
    simp
  · intro hage hstud
    rw [hstud, hage]
    simp
  · intro hage hstud hdis
    rw [hstud, hdis, hage]
    simp

/-- Instantiation of the amended C2 theorem: a 10-year-old child with no
income in a no-income household is a dependent, and a 24-year-old
non-disabled student with no income is not. -/
theorem is_dependent_age_boundaries_witness :
    (mkMember 2 "child" 10).is_dependent
      (mkScreen [mkMember 1 "headOfHousehold" 35, mkMember 2 "child" 10] []) = true ∧
    (⟨2, "child", 24, false, false, true, none⟩ : HouseholdMember).is_dependent
      (mkScreen [mkMember 1 "headOfHousehold" 35, (⟨2, "child", 24, false, false, true, none⟩ : HouseholdMember)] []) = false := by
  have hz : ∀ (ms : List HouseholdMember) (m : HouseholdMember),
      memberYearlyIncome (mkScreen ms []) m ≤ householdYearlyIncome (mkScreen ms []) / 2 := by
    intro ms m
    simp [memberYearlyIncome, householdYearlyIncome, Screen.calc_gross_income,
      HouseholdMember.calc_gross_income, memberStreams, mkScreen]
  constructor
  · exact (is_dependent_age_boundaries
      (mkScreen [mkMember 1 "headOfHousehold" 35, mkMember 2 "child" 10] [])
      (mkMember 2 "child" 10) (by decide) (by decide) (hz _ _)).1 (by decide)
  · exact (is_dependent_age_boundaries
      (mkScreen [mkMember 1 "headOfHousehold" 35, (⟨2, "child", 24, false, false, true, none⟩ : HouseholdMember)] [])
      (⟨2, "child", 24, false, false, true, none⟩ : HouseholdMember) (by decide) (by decide) (hz _ _)).2.2.2
        (by decide) (by decide) (by decide)

/-- Claim C3: a member whose own annual gross income exceeds 50% of the
combined income of the unit including the member is never classified as
a dependent, whatever the age, student or disability flags say. -/
theorem is_dependent_income_threshold (s : Screen) (m : HouseholdMember)
    (h : householdYearlyIncome s / 2 < memberYearlyIncome s m) :
    m.is_dependent s = false := by
  unfold HouseholdMember.is_dependent
  rw [decide_eq_false (not_le.mpr h)]
  simp

/-- Instantiation of C3 at the repository test's data: a 17-year-old
child earning 2000 monthly against a head earning 1000 monthly exceeds
half of the 36000 household income, so is not a dependent. -/
theorem is_dependent_income_threshold_witness :
    (mkMember 2 "child" 17).is_dependent
      (mkScreen [mkMember 1 "headOfHousehold" 35, mkMember 2 "child" 17]
        [⟨1, "wages", 1000, .monthly⟩, ⟨2, "wages", 2000, .monthly⟩]) = false := by
  apply is_dependent_income_threshold
  have h1 : householdYearlyIncome
      (mkScreen [mkMember 1 "headOfHousehold" 35, mkMember 2 "child" 17]
        [⟨1, "wages", 1000, .monthly⟩, ⟨2, "wages", 2000, .monthly⟩]) = 36000 := by
    simp [householdYearlyIncome, Screen.calc_gross_income, mkScreen, includeStream,
      List.filter, annualAmount, periodsPerYear, tagOf]
    norm_num
  have h2 : memberYearlyIncome
      (mkScreen [mkMember 1 "headOfHousehold" 35, mkMember 2 "child" 17]
        [⟨1, "wages", 1000, .monthly⟩, ⟨2, "wages", 2000, .monthly⟩]) (mkMember 2 "child" 17) = 24000 := by
    simp [memberYearlyIncome, HouseholdMember.calc_gross_income, memberStreams, mkScreen,
      mkMember, includeStream, List.filter, annualAmount, periodsPerYear, tagOf]
    norm_num
  rw [h1, h2]
  norm_num

/-- In a screen without income streams, every member meets the
50%-of-combined-income condition (zero against zero). -/
theorem hinc_nil (ms : List HouseholdMember) (m : HouseholdMember) :
    memberYearlyIncome (mkScreen ms []) m ≤ householdYearlyIncome (mkScreen ms []) / 2 := by
  simp [memberYearlyIncome, householdYearlyIncome, Screen.calc_gross_income,
    HouseholdMember.calc_gross_income, memberStreams, mkScreen]

/-- Members of a built screen. -/
theorem mkScreen_members (ms : List HouseholdMember) (inc : List IncomeStream) :
    (mkScreen ms inc).members = ms := rfl

/-- A non-head, non-spouse member aged at most 18 meeting the income
condition is a dependent. -/
theorem is_dependent_true_simple (s : Screen) (m : HouseholdMember)
    (hhead : m.is_head = false) (hspouse : m.is_spouse = false) (hage : m.age ≤ 18)
    (hinc : memberYearlyIncome s m ≤ householdYearlyIncome s / 2) :
    m.is_dependent s = true := by
  unfold HouseholdMember.is_dependent
  rw [hhead, hspouse, decide_eq_true hinc, decide_eq_true hage]
  simp

/-- A non-student, non-disabled member aged at least 19 is never a
dependent. -/
theorem is_dependent_false_adult (s : Screen) (m : HouseholdMember)
    (hage : 19 ≤ m.age) (hstud : m.student = false) (hdis : m.has_disability = false) :
    m.is_dependent s = false := by
  unfold HouseholdMember.is_dependent
  rw [hstud, hdis, decide_eq_false (by omega : ¬ m.age ≤ 18)]
  simp

/-- Partitioning scenario: a lone head yields the empty secondary unit. -/
theorem otherUnit_lone_head (a : Nat) :
    (mkScreen [mkMember 1 "headOfHousehold" a] []).other_tax_unit_structure =
      ⟨none, none, []⟩ := by
  have hcands : secondaryCandidates (mkScreen [mkMember 1 "headOfHousehold" a] []) = [] := by
    have hh : (mkMember 1 "headOfHousehold" a).is_head = true := rfl
    unfold secondaryCandidates
    rw [mkScreen_members]
    simp [List.filter_cons, hh]
  unfold Screen.other_tax_unit_structure
  rw [hcands]
  rfl

/-- Partitioning scenario: head, spouse and a minor child are all
absorbed into the primary unit. -/
theorem otherUnit_primary_family (ha sa ca : Nat) (hca : ca ≤ 18) :
    (mkScreen [mkMember 1 "headOfHousehold" ha, mkMember 2 "spouse" sa, mkMember 3 "child" ca]
      []).other_tax_unit_structure = ⟨none, none, []⟩ := by
  have hdep : (mkMember 3 "child" ca).is_dependent
      (mkScreen [mkMember 1 "headOfHousehold" ha, mkMember 2 "spouse" sa, mkMember 3 "child" ca] []) = true :=
    is_dependent_true_simple _ _ rfl rfl hca (hinc_nil _ _)
  have hcands : secondaryCandidates
      (mkScreen [mkMember 1 "headOfHousehold" ha, mkMember 2 "spouse" sa, mkMember 3 "child" ca] []) = [] := by
    have hh : (mkMember 1 "headOfHousehold" ha).is_head = true := rfl
    have hsp : (mkMember 2 "spouse" sa).is_spouse = true := rfl
    have h3h : (mkMember 3 "child" ca).is_head = false := rfl
    have h3s : (mkMember 3 "child" ca).is_spouse = false := rfl
    unfold secondaryCandidates
    rw [mkScreen_members]
    simp [List.filter_cons, hh, hsp, h3h, h3s, hdep]
  unfold Screen.other_tax_unit_structure
  rw [hcands]
  rfl

/-- Partitioning scenario: an adult non-dependent child heads the
secondary unit alone. -/
theorem otherUnit_adult_child (ha ca : Nat) (hc : 19 ≤ ca) :
    (mkScreen [mkMember 1 "headOfHousehold" ha, mkMember 2 "child" ca]
      [⟨1, "wages", 3000, .monthly⟩, ⟨2, "wages", 4000, .monthly⟩]).other_tax_unit_structure =
    ⟨some (mkMember 2 "child" ca), none, []⟩ := by
  have hdep : (mkMember 2 "child" ca).is_dependent
      (mkScreen [mkMember 1 "headOfHousehold" ha, mkMember 2 "child" ca]
        [⟨1, "wages", 3000, .monthly⟩, ⟨2, "wages", 4000, .monthly⟩]) = false :=
    is_dependent_false_adult _ _ hc rfl rfl
  have hcands : secondaryCandidates
      (mkScreen [mkMember 1 "headOfHousehold" ha, mkMember 2 "child" ca]
        [⟨1, "wages", 3000, .monthly⟩, ⟨2, "wages", 4000, .monthly⟩]) = [mkMember 2 "child" ca] := by
    have hh : (mkMember 1 "headOfHousehold" ha).is_head = true := rfl
    have h2h : (mkMember 2 "child" ca).is_head = false := rfl
    have h2s : (mkMember 2 "child" ca).is_spouse = false := rfl
    unfold secondaryCandidates
    rw [mkScreen_members]
    simp [List.filter_cons, hh, h2h, h2s, hdep]
  unfold Screen.other_tax_unit_structure
  rw [hcands]
  rfl

/-- Partitioning scenario: two co-resident grandparents of different
ages form the secondary unit, the older as head, the younger as spouse. -/
theorem otherUnit_grandparent_couple (ha ca a1 a2 : Nat) (hca : ca ≤ 18)
    (h1 : 19 ≤ a1) (h2 : 19 ≤ a2) :
    (a2 < a1 →
      (mkScreen [mkMember 1 "headOfHousehold" ha, mkMember 2 "child" ca,
        mkMember 3 "grandParent" a1, mkMember 4 "grandParent" a2] []).other_tax_unit_structure =
      ⟨some (mkMember 3 "grandParent" a1), some (mkMember 4 "grandParent" a2), []⟩) ∧
    (a1 < a2 →
      (mkScreen [mkMember 1 "headOfHousehold" ha, mkMember 2 "child" ca,
        mkMember 3 "grandParent" a1, mkMember 4 "grandParent" a2] []).other_tax_unit_structure =
      ⟨some (mkMember 4 "grandParent" a2), some (mkMember 3 "grandParent" a1), []⟩) := by
  have hdepc : (mkMember 2 "child" ca).is_dependent
      (mkScreen [mkMember 1 "headOfHousehold" ha, mkMember 2 "child" ca,
        mkMember 3 "grandParent" a1, mkMember 4 "grandParent" a2] []) = true :=
    is_dependent_true_simple _ _ rfl rfl hca (hinc_nil _ _)
  have hdep3 : (mkMember 3 "grandParent" a1).is_dependent
      (mkScreen [mkMember 1 "headOfHousehold" ha, mkMember 2 "child" ca,
        mkMember 3 "grandParent" a1, mkMember 4 "grandParent" a2] []) = false :=
    is_dependent_false_adult _ _ h1 rfl rfl
  have hdep4 : (mkMember 4 "grandParent" a2).is_dependent
      (mkScreen [mkMember 1 "headOfHousehold" ha, mkMember 2 "child" ca,
        mkMember 3 "grandParent" a1, mkMember 4 "grandParent" a2] []) = false :=
    is_dependent_false_adult _ _ h2 rfl rfl
  have hcands : secondaryCandidates
      (mkScreen [mkMember 1 "headOfHousehold" ha, mkMember 2 "child" ca,
        mkMember 3 "grandParent" a1, mkMember 4 "grandParent" a2] []) =
      [mkMember 3 "grandParent" a1, mkMember 4 "grandParent" a2] := by
    have hh : (mkMember 1 "headOfHousehold" ha).is_head = true := rfl
    have h2h : (mkMember 2 "child" ca).is_head = false := rfl
    have h2sp : (mkMember 2 "child" ca).is_spouse = false := rfl
    have h3h : (mkMember 3 "grandParent" a1).is_head = false := rfl
    have h3s : (mkMember 3 "grandParent" a1).is_spouse = false := rfl
    have h4h : (mkMember 4 "grandParent" a2).is_head = false := rfl
    have h4s : (mkMember 4 "grandParent" a2).is_spouse = false := rfl
    unfold secondaryCandidates
    rw [mkScreen_members]
    simp [List.filter_cons, hh, h2h, h2sp, h3h, h3s, h4h, h4s, hdepc, hdep3, hdep4]
  constructor
  · intro hlt
    unfold Screen.other_tax_unit_structure
    rw [hcands]
    have hpick : pickOldest [mkMember 3 "grandParent" a1, mkMember 4 "grandParent" a2] =
        some (mkMember 3 "grandParent" a1) := by
      unfold pickOldest
      simp only [List.foldl_cons, List.foldl_nil, mkMember]
      rw [if_neg (by omega : ¬ a1 ≤ a2)]
    rw [hpick]
    simp [otherUnitWith, pickOldest, coupleRel, List.filter_cons, mkMember]
  · intro hlt
    unfold Screen.other_tax_unit_structure
    rw [hcands]
    have hpick : pickOldest [mkMember 3 "grandParent" a1, mkMember 4 "grandParent" a2] =
        some (mkMember 4 "grandParent" a2) := by
      unfold pickOldest
      simp only [List.foldl_cons, List.foldl_nil, mkMember]
      rw [if_pos (by omega : a1 ≤ a2)]
    rw [hpick]
    simp [otherUnitWith, pickOldest, coupleRel, List.filter_cons, mkMember]

/-- Claim C1: the four partitioning scenarios of
Screen.other_tax_unit_structure(): a lone head yields head=None,
spouse=None, dependents=[]; head + spouse + minor child yields the same
empty result; head + one adult non-dependent child yields that child as
the secondary head with no spouse and no dependents; and two
co-resident grandParent members of different ages yield the older as
head and the younger as spouse of the secondary unit. -/
theorem other_tax_unit_structure_scenarios :
    (∀ a : Nat, (mkScreen [mkMember 1 "headOfHousehold" a] []).other_tax_unit_structure =
      ⟨none, none, []⟩) ∧
    (∀ ha sa ca : Nat, ca ≤ 18 →
      (mkScreen [mkMember 1 "headOfHousehold" ha, mkMember 2 "spouse" sa, mkMember 3 "child" ca]
        []).other_tax_unit_structure = ⟨none, none, []⟩) ∧
    (∀ ha ca : Nat, 19 ≤ ca →
      (mkScreen [mkMember 1 "headOfHousehold" ha, mkMember 2 "child" ca]
        [⟨1, "wages", 3000, .monthly⟩, ⟨2, "wages", 4000, .monthly⟩]).other_tax_unit_structure =
      ⟨some (mkMember 2 "child" ca), none, []⟩) ∧
    (∀ ha ca a1 a2 : Nat, ca ≤ 18 → 19 ≤ a1 → 19 ≤ a2 →
      (a2 < a1 →
        (mkScreen [mkMember 1 "headOfHousehold" ha, mkMember 2 "child" ca,
          mkMember 3 "grandParent" a1, mkMember 4 "grandParent" a2] []).other_tax_unit_structure =
        ⟨some (mkMember 3 "grandParent" a1), some (mkMember 4 "grandParent" a2), []⟩) ∧
      (a1 < a2 →
        (mkScreen [mkMember 1 "headOfHousehold" ha, mkMember 2 "child" ca,
          mkMember 3 "grandParent" a1, mkMember 4 "grandParent" a2] []).other_tax_unit_structure =
        ⟨some (mkMember 4 "grandParent" a2), some (mkMember 3 "grandParent" a1), []⟩)) :=
  ⟨otherUnit_lone_head,
   otherUnit_primary_family,
   otherUnit_adult_child,
   fun ha ca a1 a2 hca h1 h2 => otherUnit_grandparent_couple ha ca a1 a2 hca h1 h2⟩

/-- Instantiation of the C1 scenarios at the repository tests' concrete
households (ages 35; 35/33/5; 55/25 with the wage streams; 30/5/65/63). -/
theorem other_tax_unit_structure_scenarios_witness :
    (mkScreen [mkMember 1 "headOfHousehold" 35] []).other_tax_unit_structure =
      ⟨none, none, []⟩ ∧
    (mkScreen [mkMember 1 "headOfHousehold" 35, mkMember 2 "spouse" 33, mkMember 3 "child" 5]
      []).other_tax_unit_structure = ⟨none, none, []⟩ ∧
    (mkScreen [mkMember 1 "headOfHousehold" 55, mkMember 2 "child" 25]
      [⟨1, "wages", 3000, .monthly⟩, ⟨2, "wages", 4000, .monthly⟩]).other_tax_unit_structure =
      ⟨some (mkMember 2 "child" 25), none, []⟩ ∧
    (mkScreen [mkMember 1 "headOfHousehold" 30, mkMember 2 "child" 5,
      mkMember 3 "grandParent" 65, mkMember 4 "grandParent" 63] []).other_tax_unit_structure =
      ⟨some (mkMember 3 "grandParent" 65), some (mkMember 4 "grandParent" 63), []⟩ :=
  ⟨other_tax_unit_structure_scenarios.1 35,
   other_tax_unit_structure_scenarios.2.1 35 33 5 (by decide),
   other_tax_unit_structure_scenarios.2.2.1 55 25 (by decide),
   (other_tax_unit_structure_scenarios.2.2.2 30 5 65 63 (by decide) (by decide) (by decide)).1
     (by decide)⟩

/-- Claim C6: with several non-dependent adult candidates for the
secondary unit, the head is selected by age descending, and an age tie
is broken by iteration order with the later-created member winning: over
the two candidate ages the chosen head is the second-inserted member
exactly when its age is greater than or equal to the first's. -/
theorem other_head_selected_by_age (a1 a2 : Nat) (h1 : 19 ≤ a1) (h2 : 19 ≤ a2) :
    (mkScreen [mkMember 1 "headOfHousehold" 40, mkMember 2 "child" 10,
      mkMember 3 "child" a1, mkMember 4 "child" a2] []).other_tax_unit_structure.head =
    some (if a1 ≤ a2 then mkMember 4 "child" a2 else mkMember 3 "child" a1) := by
  have hdepc : (mkMember 2 "child" 10).is_dependent
      (mkScreen [mkMember 1 "headOfHousehold" 40, mkMember 2 "child" 10,
        mkMember 3 "child" a1, mkMember 4 "child" a2] []) = true :=
    is_dependent_true_simple _ _ rfl rfl (by decide) (hinc_nil _ _)
  have hdep3 : (mkMember 3 "child" a1).is_dependent
      (mkScreen [mkMember 1 "headOfHousehold" 40, mkMember 2 "child" 10,
        mkMember 3 "child" a1, mkMember 4 "child" a2] []) = false :=
    is_dependent_false_adult _ _ h1 rfl rfl
  have hdep4 : (mkMember 4 "child" a2).is_dependent
      (mkScreen [mkMember 1 "headOfHousehold" 40, mkMember 2 "child" 10,
        mkMember 3 "child" a1, mkMember 4 "child" a2] []) = false :=
    is_dependent_false_adult _ _ h2 rfl rfl
  have hcands : secondaryCandidates
      (mkScreen [mkMember 1 "headOfHousehold" 40, mkMember 2 "child" 10,
        mkMember 3 "child" a1, mkMember 4 "child" a2] []) =
      [mkMember 3 "child" a1, mkMember 4 "child" a2] := by
    have hh : (mkMember 1 "headOfHousehold" 40).is_head = true := rfl
    have h2h : (mkMember 2 "child" 10).is_head = false := rfl
    have h2sp : (mkMember 2 "child" 10).is_spouse = false := rfl
    have h3h : (mkMember 3 "child" a1).is_head = false := rfl
    have h3s : (mkMember 3 "child" a1).is_spouse = false := rfl
    have h4h : (mkMember 4 "child" a2).is_head = false := rfl
    have h4s : (mkMember 4 "child" a2).is_spouse = false := rfl
    unfold secondaryCandidates
    rw [mkScreen_members]
    simp [List.filter_cons, hh, h2h, h2sp, h3h, h3s, h4h, h4s, hdepc, hdep3, hdep4]
  by_cases hle : a1 ≤ a2
  · have hpick : pickOldest [mkMember 3 "child" a1, mkMember 4 "child" a2] =
        some (mkMember 4 "child" a2) := by
      unfold pickOldest
      simp only [List.foldl_cons, List.foldl_nil, mkMember]
      rw [if_pos hle]
    unfold Screen.other_tax_unit_structure
    rw [hcands, hpick, if_pos hle]
    simp [otherUnitWith, pickOldest, coupleRel, List.filter_cons, mkMember]
  · have hpick : pickOldest [mkMember 3 "child" a1, mkMember 4 "child" a2] =
        some (mkMember 3 "child" a1) := by
      unfold pickOldest
      simp only [List.foldl_cons, List.foldl_nil, mkMember]
      rw [if_neg hle]
    unfold Screen.other_tax_unit_structure
    rw [hcands, hpick, if_neg hle]
    simp [otherUnitWith, pickOldest, coupleRel, List.filter_cons, mkMember]

/-- Instantiation of C6 at the repository test's ages 25 and 28: the
28-year-old later-created adult heads the secondary unit. -/
theorem other_head_selected_by_age_witness :
    (mkScreen [mkMember 1 "headOfHousehold" 40, mkMember 2 "child" 10,
      mkMember 3 "child" 25, mkMember 4 "child" 28] []).other_tax_unit_structure.head =
    some (mkMember 4 "child" 28) := by
  have h := other_head_selected_by_age 25 28 (by decide) (by decide)
  simpa using h

/-- Accumulating fold of annualized expenses. -/
theorem foldl_expense_acc (l : List Expense) (a : ℚ) :
    l.foldl (fun acc e => acc + annualExpense e) a = a + (l.map annualExpense).sum := by
  induction l generalizing a with
  | nil => simp
  | cons x xs ih =>
      simp only [List.foldl_cons, List.map_cons, List.sum_cons, ih]
      ring

/-- Claim C7: MedicalExpenseDependency.value() equals the annualized
household medical expense divided by the number of elderly-or-disabled
members when the member is elderly (age at least the fixed threshold)
or disabled, and equals 0 otherwise. -/
theorem medical_expense_dependency_value (s : Screen) (m : HouseholdMember) :
    (isElderlyOrDisabled m = true →
      MedicalExpenseDependency.value s m =
        ((s.expenses.filter (fun e => e.type = "medical")).map annualExpense).sum /
          (countElderlyOrDisabled s : ℚ)) ∧
    (isElderlyOrDisabled m = false → MedicalExpenseDependency.value s m = 0) := by
  constructor
  · intro h
    unfold MedicalExpenseDependency.value
    rw [if_pos h]
    unfold annualExpenseOfTypes
    rw [List.filter_congr (fun e _ => by simp [List.contains] : ∀ e ∈ s.expenses,
      (["medical"].contains e.type) = decide (e.type = "medical"))]
    rw [foldl_expense_acc]
    ring
  · intro h
    unfold MedicalExpenseDependency.value
    rw [if_neg (by simp [h])]

/-- Instantiation of C7 at the repository test's data: a 200-monthly
medical expense gives 2400 for the sole elderly member aged 65 and 0 for
the non-elderly, non-disabled head. -/
theorem medical_expense_dependency_value_witness :
    MedicalExpenseDependency.value
      (⟨2, [mkMember 1 "headOfHousehold" 35, mkMember 2 "parent" 65], [],
        [⟨"medical", 200, .monthly⟩], fun _ => false⟩ : Screen) (mkMember 2 "parent" 65) = 2400 ∧
    MedicalExpenseDependency.value
      (⟨2, [mkMember 1 "headOfHousehold" 35, mkMember 2 "parent" 65], [],
        [⟨"medical", 200, .monthly⟩], fun _ => false⟩ : Screen) (mkMember 1 "headOfHousehold" 35) = 0 := by
  constructor
  · have h := (medical_expense_dependency_value
      (⟨2, [mkMember 1 "headOfHousehold" 35, mkMember 2 "parent" 65], [],
        [⟨"medical", 200, .monthly⟩], fun _ => false⟩ : Screen) (mkMember 2 "parent" 65)).1 (by decide)
    rw [h]
    norm_num [List.filter, annualExpense, periodsPerYear, countElderlyOrDisabled,
      isElderlyOrDisabled, elderlyAgeThreshold, mkMember, HouseholdMember.has_disability]
  · exact (medical_expense_dependency_value
      (⟨2, [mkMember 1 "headOfHousehold" 35, mkMember 2 "parent" 65], [],
        [⟨"medical", 200, .monthly⟩], fun _ => false⟩ : Screen) (mkMember 1 "headOfHousehold" 35)).2 (by decide)

/-- Annualized sum of a member's income streams of exactly one type. -/
def annualTypeSum (s : Screen) (m : HouseholdMember) (t : String) : ℚ :=
  (((memberStreams s m).filter (fun st => st.type = t)).map annualAmount).sum

/-- Claim C8: the pension resolver sums the member's pension and veteran
streams (annualized, summed across streams and across the two types);
the Social-Security resolver sums the retirement, disability, survivor
and dependent subtypes; each returns 0 when the member has no matching
stream. -/
theorem pension_social_security_income_values (s : Screen) (m : HouseholdMember) :
    PensionIncomeDependency.value s m =
      annualTypeSum s m "pension" + annualTypeSum s m "veteran" ∧
    SocialSecurityIncomeDependency.value s m =
      annualTypeSum s m "sSRetirement" + annualTypeSum s m "sSDisability" +
        annualTypeSum s m "sSSurvivor" + annualTypeSum s m "sSDependent" ∧
    ((∀ st ∈ memberStreams s m, st.type ≠ "pension" ∧ st.type ≠ "veteran") →
      PensionIncomeDependency.value s m = 0) ∧
    ((∀ st ∈ memberStreams s m, st.type ≠ "sSRetirement" ∧ st.type ≠ "sSDisability" ∧
        st.type ≠ "sSSurvivor" ∧ st.type ≠ "sSDependent") →
      SocialSecurityIncomeDependency.value s m = 0) := by
  have hpension : PensionIncomeDependency.value s m =
      annualTypeSum s m "pension" + annualTypeSum s m "veteran" := by
    unfold PensionIncomeDependency.value memberIncomeByTypes
    rw [foldl_annual_eq_sum]
    rw [List.filter_congr (fun st _ => by simp [List.contains] : ∀ st ∈ memberStreams s m,
      ((["pension", "veteran"].contains st.type)) =
        (decide (st.type = "pension") || decide (st.type = "veteran")))]
    rw [sum_map_filter_or annualAmount _ _ _ (by
      intro st _ hst
      rw [decide_eq_true_eq, decide_eq_true_eq] at hst
      rw [hst.1] at hst
      exact absurd hst.2 (by decide))]
    rfl
  have hss : SocialSecurityIncomeDependency.value s m =
      annualTypeSum s m "sSRetirement" + annualTypeSum s m "sSDisability" +
        annualTypeSum s m "sSSurvivor" + annualTypeSum s m "sSDependent" := by
    unfold SocialSecurityIncomeDependency.value memberIncomeByTypes
    rw [foldl_annual_eq_sum]
    rw [List.filter_congr (fun st _ => by simp [List.contains] : ∀ st ∈ memberStreams s m,
      ((["sSRetirement", "sSDisability", "sSSurvivor", "sSDependent"].contains st.type)) =
        (decide (st.type = "sSRetirement") || (decide (st.type = "sSDisability") ||
          (decide (st.type = "sSSurvivor") || decide (st.type = "sSDependent")))))]
    rw [sum_map_filter_or annualAmount _ _ _ (by
      intro st _ hst
      rw [decide_eq_true_eq, Bool.or_eq_true, Bool.or_eq_true,
        decide_eq_true_eq, decide_eq_true_eq, decide_eq_true_eq] at hst
      rcases hst with ⟨h1, h2 | h2 | h2⟩ <;> rw [h1] at h2 <;> exact absurd h2 (by decide))]
    rw [sum_map_filter_or annualAmount _ _ _ (by
      intro st _ hst
      rw [decide_eq_true_eq, Bool.or_eq_true, decide_eq_true_eq, decide_eq_true_eq] at hst
      rcases hst with ⟨h1, h2 | h2⟩ <;> rw [h1] at h2 <;> exact absurd h2 (by decide))]
    rw [sum_map_filter_or annualAmount _ _ _ (by
      intro st _ hst
      rw [decide_eq_true_eq, decide_eq_true_eq] at hst
      rw [hst.1] at hst
      exact absurd hst.2 (by decide))]
    show _ = annualTypeSum s m "sSRetirement" + annualTypeSum s m "sSDisability" +
      annualTypeSum s m "sSSurvivor" + annualTypeSum s m "sSDependent"
    unfold annualTypeSum
    ring
  refine ⟨hpension, hss, ?_, ?_⟩
  · intro h
    rw [hpension]
    have h1 : (memberStreams s m).filter (fun st => decide (st.type = "pension")) = [] :=
      List.filter_eq_nil_iff.mpr (fun st hst => by simpa using (h st hst).1)
    have h2 : (memberStreams s m).filter (fun st => decide (st.type = "veteran")) = [] :=
      List.filter_eq_nil_iff.mpr (fun st hst => by simpa using (h st hst).2)
    unfold annualTypeSum
    rw [h1, h2]
    simp
  · intro h
    rw [hss]
    have h1 : (memberStreams s m).filter (fun st => decide (st.type = "sSRetirement")) = [] :=
      List.filter_eq_nil_iff.mpr (fun st hst => by simpa using (h st hst).1)
    have h2 : (memberStreams s m).filter (fun st => decide (st.type = "sSDisability")) = [] :=
      List.filter_eq_nil_iff.mpr (fun st hst => by simpa using (h st hst).2.1)
    have h3 : (memberStreams s m).filter (fun st => decide (st.type = "sSSurvivor")) = [] :=
      List.filter_eq_nil_iff.mpr (fun st hst => by simpa using (h st hst).2.2.1)
    have h4 : (memberStreams s m).filter (fun st => decide (st.type = "sSDependent")) = [] :=
      List.filter_eq_nil_iff.mpr (fun st hst => by simpa using (h st hst).2.2.2)
    unfold annualTypeSum
    rw [h1, h2, h3, h4]
    simp

/-- Instantiation of C8 at the repository test's data: pension 2000 and
veteran 500 monthly combine to 30000 a year; retirement 1000 and
dependent 300 monthly combine to 15600; a member with no streams gets 0
from both resolvers. -/
theorem pension_social_security_income_values_witness :
    PensionIncomeDependency.value
      (mkScreen [mkMember 1 "headOfHousehold" 65]
        [⟨1, "pension", 2000, .monthly⟩, ⟨1, "veteran", 500, .monthly⟩])
      (mkMember 1 "headOfHousehold" 65) = 30000 ∧
    SocialSecurityIncomeDependency.value
      (mkScreen [mkMember 1 "headOfHousehold" 67]
        [⟨1, "sSRetirement", 1000, .monthly⟩, ⟨1, "sSDependent", 300, .monthly⟩])
      (mkMember 1 "headOfHousehold" 67) = 15600 ∧
    PensionIncomeDependency.value (mkScreen [mkMember 1 "headOfHousehold" 65] [])
      (mkMember 1 "headOfHousehold" 65) = 0 := by
  refine ⟨?_, ?_, ?_⟩
  · rw [(pension_social_security_income_values
      (mkScreen [mkMember 1 "headOfHousehold" 65]
        [⟨1, "pension", 2000, .monthly⟩, ⟨1, "veteran", 500, .monthly⟩])
      (mkMember 1 "headOfHousehold" 65)).1]
    norm_num [annualTypeSum, memberStreams, mkScreen, mkMember, List.filter_cons,
      List.map_cons, List.sum_cons, annualAmount, periodsPerYear,
      (by decide : ¬("veteran" = "pension")), (by decide : ¬("pension" = "veteran"))]
  · rw [(pension_social_security_income_values
      (mkScreen [mkMember 1 "headOfHousehold" 67]
        [⟨1, "sSRetirement", 1000, .monthly⟩, ⟨1, "sSDependent", 300, .monthly⟩])
      (mkMember 1 "headOfHousehold" 67)).2.1]
    norm_num [annualTypeSum, memberStreams, mkScreen, mkMember, List.filter_cons,
      List.map_cons, List.sum_cons, annualAmount, periodsPerYear,
      (by decide : ¬("sSDependent" = "sSRetirement")), (by decide : ¬("sSRetirement" = "sSDisability")),
      (by decide : ¬("sSDependent" = "sSDisability")), (by decide : ¬("sSRetirement" = "sSSurvivor")),
      (by decide : ¬("sSDependent" = "sSSurvivor")), (by decide : ¬("sSRetirement" = "sSDependent"))]
  · exact (pension_social_security_income_values
      (mkScreen [mkMember 1 "headOfHousehold" 65] [])
      (mkMember 1 "headOfHousehold" 65)).2.2.1 (by simp [memberStreams, mkScreen])

/-- Claim C9: PregnancyDependency.value() passes the member's pregnancy
flag through, and returns false rather than propagating an unset/None
value. -/
theorem pregnancy_dependency_value (m : HouseholdMember) :
    (∀ b, m.pregnant = some b → PregnancyDependency.value m = b) ∧
    (m.pregnant = none → PregnancyDependency.value m = false) := by
  constructor
  · intro b hb
    simp [PregnancyDependency.value, hb]
  · intro hb
    simp [PregnancyDependency.value, hb]

/-- Instantiation of C9: a pregnant member yields true, a member with an
unset flag yields false. -/
theorem pregnancy_dependency_value_witness :
    PregnancyDependency.value (⟨1, "headOfHousehold", 25, false, false, false, some true⟩ : HouseholdMember) = true ∧
    PregnancyDependency.value (⟨3, "child", 10, false, false, false, none⟩ : HouseholdMember) = false :=
  ⟨(pregnancy_dependency_value (⟨1, "headOfHousehold", 25, false, false, false, some true⟩ : HouseholdMember)).1
      true rfl,
   (pregnancy_dependency_value (⟨3, "child", 10, false, false, false, none⟩ : HouseholdMember)).2 rfl⟩

/-- Dropping characters up to the first underscore of a prefixed
identifier leaves the underscore and the suffix. -/
theorem dropWhile_until_underscore (l r : List Char) (h : ('_' : Char) ∉ l) :
    (l ++ '_' :: r).dropWhile (fun c => c ≠ '_') = '_' :: r := by
  induction l with
  | nil => simp [List.dropWhile]
  | cons c cs ih =>
      simp only [List.mem_cons, not_or] at h
      simp only [List.cons_append, List.dropWhile]
      rw [decide_eq_true (by exact fun hc => h.1 hc.symm : c ≠ '_')]
      exact ih h.2

/-- Claim C10: Screen.has_benefit() with a jurisdiction-prefixed program
identifier returns exactly the screen's declared-benefit flag for the
underlying program, so identifiers from different jurisdictions for the
same program read the same shared flag; in particular tx_snap reads the
snap flag and ma_head_start reads the head_start flag. -/
theorem has_benefit_reads_shared_flag (s : Screen) (j p : String)
    (hj : ('_' : Char) ∉ j.data) :
    s.has_benefit (j ++ "_" ++ p) = s.benefits p ∧
    s.has_benefit "tx_snap" = s.benefits "snap" ∧
    s.has_benefit "ma_head_start" = s.benefits "head_start" := by
  refine ⟨?_, rfl, rfl⟩
  unfold Screen.has_benefit stripJurisdiction
  have hdata : (j ++ "_" ++ p).data = j.data ++ '_' :: p.data := by
    simp [String.data_append]
  rw [hdata, dropWhile_until_underscore j.data p.data hj]
  simp

/-- Screen with only a snap declared-benefit flag set, used to
instantiate C10. -/
def snapOnlyScreen : Screen :=
  ⟨2, [], [], [], fun q => q == "snap"⟩

/-- Instantiation of C10: on a screen whose only declared benefit is
snap, the jurisdiction-prefixed identifier built from tx and snap reads
true, and ma_head_start reads false. -/
theorem has_benefit_reads_shared_flag_witness :
    snapOnlyScreen.has_benefit ("tx" ++ "_" ++ "snap") = true ∧
    snapOnlyScreen.has_benefit "ma_head_start" = false := by
  have h := has_benefit_reads_shared_flag snapOnlyScreen "tx" "snap" (by decide)
  exact ⟨by rw [h.1]; rfl, by rw [h.2.2]; rfl⟩

/-- Claim C5: merging calculator dictionaries with disjoint key sets is
exact concatenation (no binding silently overwritten); every key of the
MA combined dictionary lies in exactly one of the MA member, tax-unit
and SPM sub-dictionaries; the all-programs registry's key set is exactly
the union of the jurisdictions' combined dictionaries, those key lists
are collision-free, and every MA and TX binding survives into the
combined registry unchanged. -/
theorem registry_structure :
    (∀ a b : List (String × String), (∀ k, k ∈ dictKeys a → k ∉ dictKeys b) →
      dictKeys (mergeDict a b) = dictKeys a ++ dictKeys b ∧
      (∀ kv, kv ∈ a → kv ∈ mergeDict a b) ∧ (∀ kv, kv ∈ b → kv ∈ mergeDict a b)) ∧
    (∀ k ∈ dictKeys ma_pe_calculators,
      (k ∈ dictKeys ma_member_calculators ∨ k ∈ dictKeys ma_tax_unit_calculators ∨
        k ∈ dictKeys ma_spm_calculators) ∧
      ¬(k ∈ dictKeys ma_member_calculators ∧ k ∈ dictKeys ma_tax_unit_calculators) ∧
      ¬(k ∈ dictKeys ma_member_calculators ∧ k ∈ dictKeys ma_spm_calculators) ∧
      ¬(k ∈ dictKeys ma_tax_unit_calculators ∧ k ∈ dictKeys ma_spm_calculators)) ∧
    (∀ k ∈ dictKeys all_calculators, k ∈ allJurisdictionKeys) ∧
    (∀ k ∈ allJurisdictionKeys, k ∈ dictKeys all_calculators) ∧
    allJurisdictionKeys.Nodup ∧
    (∀ kv ∈ ma_pe_calculators, kv ∈ all_calculators) ∧
    (∀ kv ∈ tx_pe_calculators, kv ∈ all_calculators) := by
  refine ⟨?_, by decide, by decide, by decide, by decide, by decide, by decide⟩
  intro a b hdisj
  have happ := mergeDict_eq_append a b hdisj
  refine ⟨?_, ?_, ?_⟩
  · rw [happ]
    simp [dictKeys]
  · intro kv hkv
    rw [happ]
    exact List.mem_append_left _ hkv
  · intro kv hkv
    rw [happ]
    exact List.mem_append_right _ hkv

/-- Instantiation of C5's merge law at the MA member and tax-unit
dictionaries, whose key sets are disjoint: the merge concatenates and
keeps the first MA binding intact. -/
theorem registry_structure_witness :
    dictKeys (mergeDict ma_member_calculators ma_tax_unit_calculators) =
      dictKeys ma_member_calculators ++ dictKeys ma_tax_unit_calculators ∧
    ("ma_wic", "member.MaWic") ∈ mergeDict ma_member_calculators ma_tax_unit_calculators := by
  have h := (registry_structure.1 ma_member_calculators ma_tax_unit_calculators (by decide))
  exact ⟨h.1, h.2.1 ("ma_wic", "member.MaWic") (by decide)⟩

/-- Instantiation of C4 at the spec's end-to-end example: one wages
stream of 2000 monthly gives 24000 yearly and 2000 monthly through the
"earned" selector. -/
theorem calc_gross_income_tagged_sums_witness :
    (mkScreen [mkMember 1 "headOfHousehold" 35]
      [⟨1, "wages", 2000, .monthly⟩]).calc_gross_income .yearly ["earned"] [] = 24000 ∧
    (mkScreen [mkMember 1 "headOfHousehold" 35]
      [⟨1, "wages", 2000, .monthly⟩]).calc_gross_income .monthly ["earned"] [] = 2000 := by
  have hy := (calc_gross_income_tagged_sums
    (mkScreen [mkMember 1 "headOfHousehold" 35] [⟨1, "wages", 2000, .monthly⟩]) .yearly).1
  have hm := (calc_gross_income_tagged_sums
    (mkScreen [mkMember 1 "headOfHousehold" 35] [⟨1, "wages", 2000, .monthly⟩]) .monthly).1
  constructor
  · rw [hy]
    norm_num [mkScreen, List.filter_cons, List.map_cons, List.sum_cons, annualAmount,
      periodsPerYear, tagOf]
  · rw [hm]
    norm_num [mkScreen, List.filter_cons, List.map_cons, List.sum_cons, annualAmount,
      periodsPerYear, tagOf]
